import Mathlib

/-!
Verification of the Book Tracker API gateway (`src/main.py`) against its
specification. The single source file is shallowly embedded: the external
store (Supabase table `books`) is modelled as a list of rows, each Supabase
call as a pure function on that list, and each FastAPI handler as a pure
function from the store and the parsed request to a response, the resulting
store, and the trace of store calls it issued. Raised `HTTPException`s are
modelled as `Except` errors carrying the HTTP status code and detail string;
the `try/except` wrappers of the handlers are reproduced exactly as written,
including which handlers re-raise `HTTPException` and which swallow it.
-/

namespace BookTracker

/-- A row of the `books` table (the `BookResponse` model of `src/main.py`):
`id`, `title`, `author`, `status`, `created_at`, `user_id`. Timestamps are
modelled as naturals (the store assigns them; only their order matters). -/
structure Book where
  id : String
  title : String
  author : String
  status : String
  created_at : Nat
  user_id : String
deriving Repr, DecidableEq

/-- The external store: the rows of the `books` table. -/
abbrev Store := List Book

/-- The `BookCreate` request model: `title : str`, `author : str`,
`status : str = "reading"` (line 40-43 of `src/main.py`). -/
structure BookCreate where
  title : String
  author : String
  status : String
deriving Repr, DecidableEq

/-- The `BookUpdate` request model: all three fields optional, default
`None` (lines 46-49 of `src/main.py`). -/
structure BookUpdate where
  title : Option String
  author : Option String
  status : Option String
deriving Repr, DecidableEq

/-- A raw JSON body for the create endpoint, before Pydantic validation:
each field may be present or absent. -/
structure RawBody where
  title : Option String
  author : Option String
  status : Option String
deriving Repr, DecidableEq

/-- An HTTP error response (`HTTPException`): status code and detail. -/
structure ApiError where
  code : Nat
  detail : String
deriving Repr, DecidableEq

/-- A client error is a 4xx status code. -/
def ApiError.isClientError (e : ApiError) : Bool :=
  400 ≤ e.code && e.code < 500

/-- Python `str(e)` of a `starlette.exceptions.HTTPException`:
`f"\x7bstatus_code\x7d: \x7bdetail\x7d"`. -/
def ApiError.str (e : ApiError) : String :=
  toString e.code ++ ": " ++ e.detail

/-- One call issued to the external store (a `.execute()` on the Supabase
client). -/
inductive StoreOp where
  | select : StoreOp
  | insert : StoreOp
  | update : StoreOp
  | delete : StoreOp
deriving Repr, DecidableEq

/-- The list `valid_statuses = ["reading", "completed", "wishlist"]` (lines 94, 134,
199 of `src/main.py`). -/
def valid_statuses : List String := ["reading", "completed", "wishlist"]

/-- The joined enumeration `", ".join(valid_statuses)`. -/
def joinedStatuses : String := "reading, completed, wishlist"

/-- The owner-scoped lookup
`supabase.table("books").select("*").eq("id", book_id).eq("user_id", user_id)`
(lines 155 and 184 of `src/main.py`). -/
def selectIdUser (s : Store) (book_id user_id : String) : List Book :=
  s.filter (fun b => b.id == book_id && b.user_id == user_id)

/-- Modelled from the spec: the store contract `delete-rows(table, filters)`
of section 6.3 — the Supabase client is an external collaborator; deleting
with equality filters on `id` and `user_id` removes exactly the matching
rows (line 164 of `src/main.py`). -/
def deleteRows (s : Store) (book_id user_id : String) : Store :=
  s.filter (fun b => !(b.id == book_id && b.user_id == user_id))

/-- The `update_data` dict built by `update_book` (lines 193-205): each key
present iff the corresponding input field was supplied (and, for `status`,
valid — validation raises before the key is added). -/
structure UpdateData where
  title : Option String
  author : Option String
  status : Option String
deriving Repr, DecidableEq

/-- The check `if not update_data` — the dict is empty iff no key was added. -/
def UpdateData.isEmpty (u : UpdateData) : Bool :=
  u.title == none && u.author == none && u.status == none

/-- Applying an update dict to a row: each supplied field is overwritten,
every omitted field keeps its value; `id`, `created_at`, `user_id` are not
part of the dict and are never touched. -/
def applyUpdate (u : UpdateData) (b : Book) : Book :=
  { b with
    title := u.title.getD b.title
    author := u.author.getD b.author
    status := u.status.getD b.status }

/-- Modelled from the spec: the store contract `update-rows(table, fields,
filters) → rows` of section 6.3 — the rows matching the equality filters on
`id` and `user_id` get the supplied fields set (line 214 of `src/main.py`);
the call returns the updated rows (`result.data`). -/
def updateRowsStore (s : Store) (u : UpdateData) (book_id user_id : String) : Store :=
  s.map (fun b => if b.id == book_id && b.user_id == user_id then applyUpdate u b else b)

/-- Modelled from the spec: the rows returned by `update-rows` — the
matching rows after the supplied fields were applied. -/
def updateRowsData (s : Store) (u : UpdateData) (book_id user_id : String) : List Book :=
  (s.filter (fun b => b.id == book_id && b.user_id == user_id)).map (applyUpdate u)

/-- Modelled from the spec: the store contract `insert-row(table, fields) →
row` of section 6.3 — the store assigns `id` and `created_at` server-side
(the gateway sends `title`, `author`, `status`, `user_id`; lines 103-108 of
`src/main.py`). `newId` and `ts` stand for the store-assigned values. -/
def insertRow (book : BookCreate) (user_id newId : String) (ts : Nat) : Book :=
  { id := newId, title := book.title, author := book.author,
    status := book.status, created_at := ts, user_id := user_id }

/-- The sort relation of `query.order("created_at", desc=True)`:
most recent first. -/
def createdDesc (a b : Book) : Prop := b.created_at ≤ a.created_at

instance : DecidableRel createdDesc := fun a b =>
  inferInstanceAs (Decidable (b.created_at ≤ a.created_at))

instance : IsTotal Book createdDesc :=
  ⟨fun a b => (Nat.le_total b.created_at a.created_at)⟩

instance : IsTrans Book createdDesc :=
  ⟨fun _ _ _ h h2 => Nat.le_trans h2 h⟩

/-- Modelled from the spec: the store contract `select-rows(table, filters,
order) → rows` of section 6.3 — ordering by `created_at` descending (line
142 of `src/main.py`). -/
def orderByCreatedDesc (l : List Book) : List Book :=
  List.insertionSort createdDesc l

/-- Python truthiness of `status_filter` in `if status_filter:` (line 133):
`None` and the empty string are falsy. -/
def truthy : Option String → Bool
  | none => false
  | some s => !(s == "")

/-- Result of a handler that may mutate the store: the HTTP response, the
store after the request, and the trace of store calls issued. -/
structure HandlerResult (α : Type) where
  response : Except ApiError α
  store : Store
  ops : List StoreOp
deriving Repr

instance (ε α : Type) [DecidableEq ε] [DecidableEq α] : DecidableEq (Except ε α) :=
  fun a b =>
    match a, b with
    | .ok x, .ok y =>
        decidable_of_iff (x = y) ⟨fun h => by rw [h], fun h => by injection h⟩
    | .error x, .error y =>
        decidable_of_iff (x = y) ⟨fun h => by rw [h], fun h => by injection h⟩
    | .ok _, .error _ => .isFalse (fun h => by injection h)
    | .error _, .ok _ => .isFalse (fun h => by injection h)

instance (α : Type) [DecidableEq α] : DecidableEq (HandlerResult α) := by
  intro a b
  cases a; cases b
  rw [HandlerResult.mk.injEq]
  exact inferInstance

/-- Handler `create_book` (lines 91-121 of `src/main.py`): validate `status` against
the enumeration (outside the `try`), then insert; a 500 if the insert
returns no row (the modelled insert always returns the row). `newId` and
`ts` are the store-assigned id and timestamp. -/
def create_book (s : Store) (book : BookCreate) (user_id newId : String) (ts : Nat) :
    HandlerResult Book :=
  if ¬ (valid_statuses.contains book.status) then
    ⟨.error ⟨400, "Status must be one of: " ++ joinedStatuses⟩, s, []⟩
  else
    let row := insertRow book user_id newId ts
    ⟨.ok row, s ++ [row], [.insert]⟩

/-- The body of `get_books` inside the `try` (lines 129-143): build the
owner-scoped query, validate a truthy `status_filter` against the
enumeration (raising 400 *before* the query is executed), narrow by status
when the filter is truthy, execute ordered by `created_at` descending. -/
def get_books_inner (s : Store) (status_filter : Option String) (user_id : String) :
    Except ApiError (List Book) × List StoreOp :=
  if truthy status_filter then
    let f := status_filter.getD ""
    if ¬ (valid_statuses.contains f) then
      (.error ⟨400, "Status filter must be one of: " ++ joinedStatuses⟩, [])
    else
      (.ok (orderByCreatedDesc
        (s.filter (fun b => b.user_id == user_id && b.status == f))), [.select])
  else
    (.ok (orderByCreatedDesc (s.filter (fun b => b.user_id == user_id))), [.select])

/-- Handler `get_books` (lines 124-148): the `try/except` has no
`except HTTPException: raise` clause, so *every* exception — including the
400 `HTTPException` raised for an invalid filter — is caught by
`except Exception as e` and re-raised as a 500 whose detail is `str(e)`. -/
def get_books (s : Store) (status_filter : Option String) (user_id : String) :
    Except ApiError (List Book) × List StoreOp :=
  match get_books_inner s status_filter user_id with
  | (.ok v, ops) => (.ok v, ops)
  | (.error e, ops) => (.error ⟨500, e.str⟩, ops)

/-- Handler `delete_book` (lines 151-173): owner-scoped existence check, 404 if
empty, then delete and return the success message *without inspecting the
delete's result*. The `check` store is the state at the existence check,
`mutate` the state at the delete call (they differ only under a race). The
wrapper `except HTTPException: raise` passes HTTP errors through. -/
def delete_book (check mutate : Store) (book_id user_id : String) :
    HandlerResult String :=
  if (selectIdUser check book_id user_id).isEmpty then
    ⟨.error ⟨404, "Book not found"⟩, mutate, [.select]⟩
  else
    ⟨.ok "Book deleted successfully", deleteRows mutate book_id user_id, [.select, .delete]⟩

/-- Lines 193-205 of `update_book`: build `update_data` from the supplied
fields, raising 400 on an invalid `status` before it is added. -/
def buildUpdateData (bu : BookUpdate) : Except ApiError UpdateData :=
  match bu.status with
  | none => .ok ⟨bu.title, bu.author, none⟩
  | some st =>
    if ¬ (valid_statuses.contains st) then
      .error ⟨400, "Status must be one of: " ++ joinedStatuses⟩
    else
      .ok ⟨bu.title, bu.author, some st⟩

/-- Handler `update_book` (lines 176-229): owner-scoped existence check (404 if
empty), build `update_data` (400 on invalid status), 400 if `update_data`
is empty, then issue the store update and return its first row — 500 if the
update reported no row. `check` is the store at the existence check,
`mutate` the store at the update call. -/
def update_book (check mutate : Store) (book_id : String) (bu : BookUpdate)
    (user_id : String) : HandlerResult Book :=
  if (selectIdUser check book_id user_id).isEmpty then
    ⟨.error ⟨404, "Book not found"⟩, mutate, [.select]⟩
  else
    match buildUpdateData bu with
    | .error e => ⟨.error e, mutate, [.select]⟩
    | .ok ud =>
      if ud.isEmpty then
        ⟨.error ⟨400, "No fields to update"⟩, mutate, [.select]⟩
      else
        match updateRowsData mutate ud book_id user_id with
        | [] => ⟨.error ⟨500, "Failed to update book"⟩,
                 updateRowsStore mutate ud book_id user_id, [.select, .update]⟩
        | r :: _ => ⟨.ok r, updateRowsStore mutate ud book_id user_id, [.select, .update]⟩

/-- Pydantic validation of the create body against `BookCreate`: `title`
and `author` are required (`str` with no default); a missing required field
is rejected with a 422 before the handler runs; `status` defaults to
`"reading"`. Pydantic's `str` places no non-emptiness constraint. -/
def parseBookCreate (r : RawBody) : Except ApiError BookCreate :=
  match r.title, r.author with
  | some t, some a => .ok ⟨t, a, r.status.getD "reading"⟩
  | _, _ => .error ⟨422, "Field required"⟩

/-- The full create endpoint: Pydantic body validation, then the handler.
A body rejected by validation never reaches the handler, so the store is
untouched and no store call is issued. -/
def create_endpoint (s : Store) (r : RawBody) (user_id newId : String) (ts : Nat) :
    HandlerResult Book :=
  match parseBookCreate r with
  | .error e => ⟨.error e, s, []⟩
  | .ok book => create_book s book user_id newId ts


/-- The status invariant of the data model: every persisted row's `status`
is one of the three enumerated values. -/
def statusInv (s : Store) : Prop := ∀ b ∈ s, b.status ∈ valid_statuses

/-- One authenticated API request, for reachability over the store: the
four book operations with their parsed inputs (`newId`/`ts` are the values
the store would assign on insert). -/
inductive Request where
  | createReq (raw : RawBody) (uid newId : String) (ts : Nat) : Request
  | listReq (sf : Option String) (uid : String) : Request
  | updateReq (book_id : String) (bu : BookUpdate) (uid : String) : Request
  | deleteReq (book_id : String) (uid : String) : Request

/-- The store after serving one request. `get_books` issues no mutating
store call, so a list request leaves the store unchanged; the other
handlers yield the store returned by their embedding. -/
def step (s : Store) : Request → Store
  | .createReq raw uid newId ts => (create_endpoint s raw uid newId ts).store
  | .listReq _ _ => s
  | .updateReq book_id bu uid => (update_book s s book_id bu uid).store
  | .deleteReq book_id uid => (delete_book s s book_id uid).store

/-! ## Helper lemmas -/

lemma contains_iff_mem (l : List String) (a : String) :
    l.contains a = true ↔ a ∈ l := by
  simp

lemma updateData_isEmpty_iff (u : UpdateData) :
    u.isEmpty = true ↔ u.title = none ∧ u.author = none ∧ u.status = none := by
  simp [UpdateData.isEmpty, and_assoc]

lemma selectIdUser_eq_nil (s : Store) (book_id uid : String)
    (h : ∀ b ∈ s, b.id = book_id → b.user_id ≠ uid) :
    selectIdUser s book_id uid = [] := by
  simp only [selectIdUser, List.filter_eq_nil_iff]
  intro b hb
  simp only [Bool.and_eq_true, beq_iff_eq, not_and]
  exact fun hid => h b hb hid

lemma buildUpdateData_ok_shape (bu : BookUpdate) (ud : UpdateData)
    (h : buildUpdateData bu = .ok ud) :
    ud = ⟨bu.title, bu.author, bu.status⟩ := by
  unfold buildUpdateData at h
  split at h
  · rename_i heq
    injection h with h
    rw [heq]
    exact h.symm
  · rename_i st heq
    split at h
    · simp at h
    · injection h with h
      rw [heq]
      exact h.symm

lemma buildUpdateData_status_valid (bu : BookUpdate) (ud : UpdateData)
    (h : buildUpdateData bu = .ok ud) :
    ∀ st, ud.status = some st → valid_statuses.contains st = true := by
  intro st hst
  unfold buildUpdateData at h
  split at h
  · injection h with h
    rw [← h] at hst
    simp at hst
  · rename_i s0 heq
    split at h
    · simp at h
    · rename_i hcond
      injection h with h
      rw [← h] at hst
      simp only [Option.some.injEq] at hst
      rw [← hst]
      exact not_not.mp hcond

/-! ## Claim theorems -/

/-- C1: for every update or delete request whose owner-scoped lookup is
empty — which is the case both when the referenced book belongs to another
user and when no book has that id — the lookup returns no row, the exact
same 404 "Book not found" error is returned, and the store is left
unchanged (no mutation call is issued). -/
theorem C1_cross_owner_indistinguishable_from_missing
    (s : Store) (book_id uid : String) (bu : BookUpdate)
    (h : ∀ b ∈ s, b.id = book_id → b.user_id ≠ uid) :
    selectIdUser s book_id uid = [] ∧
    update_book s s book_id bu uid =
      ⟨.error ⟨404, "Book not found"⟩, s, [.select]⟩ ∧
    delete_book s s book_id uid =
      ⟨.error ⟨404, "Book not found"⟩, s, [.select]⟩ := by
  have hsel := selectIdUser_eq_nil s book_id uid h
  refine ⟨hsel, ?_, ?_⟩
  · unfold update_book
    rw [hsel]
    rfl
  · unfold delete_book
    rw [hsel]
    rfl

/-- Witness for C1: user bob updating or deleting alice's book gets the
same 404 as for a missing id, and the store is untouched. -/
theorem C1_cross_owner_indistinguishable_from_missing_witness :
    selectIdUser [⟨"1", "Dune", "Herbert", "reading", 5, "alice"⟩] "1" "bob" = [] ∧
    update_book [⟨"1", "Dune", "Herbert", "reading", 5, "alice"⟩]
        [⟨"1", "Dune", "Herbert", "reading", 5, "alice"⟩] "1"
        ⟨some "X", none, none⟩ "bob" =
      ⟨.error ⟨404, "Book not found"⟩,
       [⟨"1", "Dune", "Herbert", "reading", 5, "alice"⟩], [.select]⟩ ∧
    delete_book [⟨"1", "Dune", "Herbert", "reading", 5, "alice"⟩]
        [⟨"1", "Dune", "Herbert", "reading", 5, "alice"⟩] "1" "bob" =
      ⟨.error ⟨404, "Book not found"⟩,
       [⟨"1", "Dune", "Herbert", "reading", 5, "alice"⟩], [.select]⟩ :=
  C1_cross_owner_indistinguishable_from_missing
    [⟨"1", "Dune", "Herbert", "reading", 5, "alice"⟩] "1" "bob"
    ⟨some "X", none, none⟩ (by decide)

/-- C2: `get_books` has no `except HTTPException: raise` clause, so the 400
raised for an invalid (non-empty) status filter is caught by the blanket
`except Exception` and surfaced as a 500 server error — contradicting the
claimed bad-request class. Here at the concrete invalid filter "bogus". -/
theorem C2_invalid_filter_surfaced_as_server_error (s : Store) (uid : String) :
    get_books s (some "bogus") uid =
      (.error ⟨500, "400: Status filter must be one of: reading, completed, wishlist"⟩,
       []) := by
  rfl

/-- C3 counterexample: a create request whose title is the empty string is
not rejected — it succeeds and the record is persisted with the empty
title. -/
theorem C3_counterexample_empty_title_accepted_and_persisted :
    create_endpoint [] ⟨some "", some "Herbert", none⟩ "u" "9" 0 =
      ⟨.ok ⟨"9", "", "Herbert", "reading", 0, "u"⟩,
       [⟨"9", "", "Herbert", "reading", 0, "u"⟩], [.insert]⟩ := by
  rfl

/-- C3 (amended): a create request *missing* title or author is rejected by
schema validation with a client error (422) before the handler runs, so no
record is persisted and no store call is issued; non-emptiness is not
checked. -/
theorem C3_missing_required_field_rejected
    (s : Store) (r : RawBody) (uid newId : String) (ts : Nat)
    (h : r.title = none ∨ r.author = none) :
    create_endpoint s r uid newId ts = ⟨.error ⟨422, "Field required"⟩, s, []⟩ ∧
    ApiError.isClientError ⟨422, "Field required"⟩ = true := by
  refine ⟨?_, by decide⟩
  obtain ⟨rt, ra, rs⟩ := r
  unfold create_endpoint parseBookCreate
  rcases h with h | h
  · have h2 : rt = none := h
    subst h2
    cases ra <;> rfl
  · have h2 : ra = none := h
    subst h2
    cases rt <;> rfl

/-- Witness for C3 (amended): a body with no title is rejected with 422 and
the store stays empty. -/
theorem C3_missing_required_field_rejected_witness :
    create_endpoint [] ⟨none, some "Herbert", none⟩ "u" "9" 0 =
      ⟨.error ⟨422, "Field required"⟩, [], []⟩ ∧
    ApiError.isClientError ⟨422, "Field required"⟩ = true :=
  C3_missing_required_field_rejected [] ⟨none, some "Herbert", none⟩ "u" "9" 0
    (Or.inl rfl)

/-- C5 (amended, update half): if the owner-scoped existence check succeeds
but the store update affects zero rows (race: the row vanished between the
check and the mutation), `update_book` surfaces a 500 server error. -/
theorem C5_update_zero_rows_is_server_error
    (check mutate : Store) (book_id uid : String) (bu : BookUpdate) (ud : UpdateData)
    (hfound : (selectIdUser check book_id uid).isEmpty = false)
    (hud : buildUpdateData bu = .ok ud)
    (hne : ud.isEmpty = false)
    (hzero : updateRowsData mutate ud book_id uid = []) :
    (update_book check mutate book_id bu uid).response =
      .error ⟨500, "Failed to update book"⟩ := by
  simp [update_book, hfound, hud, hne, hzero]

/-- Witness for C5: the existence check sees the book, but the row is gone
at mutation time; the update reports a 500. -/
theorem C5_update_zero_rows_is_server_error_witness :
    (update_book [⟨"1", "Dune", "Herbert", "reading", 5, "alice"⟩] []
        "1" ⟨none, none, some "completed"⟩ "alice").response =
      .error ⟨500, "Failed to update book"⟩ :=
  C5_update_zero_rows_is_server_error
    [⟨"1", "Dune", "Herbert", "reading", 5, "alice"⟩] [] "1" "alice"
    ⟨none, none, some "completed"⟩ ⟨none, none, some "completed"⟩
    (by decide) (by decide) (by decide) (by decide)

/-- C5 counterexample (delete half): `delete_book` never inspects the
result of the delete call, so when the existence check succeeds but the
mutation affects zero rows (the row was deleted concurrently) it still
reports success instead of a server error. -/
theorem C5_counterexample_delete_success_despite_zero_rows :
    delete_book [⟨"1", "Dune", "Herbert", "reading", 5, "alice"⟩] [] "1" "alice" =
      ⟨.ok "Book deleted successfully", [], [.select, .delete]⟩ ∧
    deleteRows [] "1" "alice" = [] :=
  ⟨rfl, rfl⟩

/-- C10: a list request with `status_filter=""` behaves exactly like one
with no filter: the empty string is falsy in `if status_filter:`, so it is
never validated against the enumeration and no narrowing is applied — all
of the caller's books are returned, newest first. -/
theorem C10_empty_string_filter_treated_as_absent (s : Store) (uid : String) :
    get_books s (some "") uid = get_books s none uid ∧
    get_books s (some "") uid =
      (.ok (orderByCreatedDesc (s.filter (fun b => b.user_id == uid))), [.select]) :=
  ⟨rfl, rfl⟩

/-- C4 counterexample: an update request carrying an invalid status *does*
trigger a store call — the owner-scoped existence read runs before the
status validation — so the trace of store calls is not empty even though
the request fails with the 400 validation error. -/
theorem C4_counterexample_update_invalid_status_triggers_store_call :
    (update_book [⟨"1", "Dune", "Herbert", "reading", 5, "alice"⟩]
        [⟨"1", "Dune", "Herbert", "reading", 5, "alice"⟩] "1"
        ⟨none, none, some "bogus"⟩ "alice").response =
      .error ⟨400, "Status must be one of: reading, completed, wishlist"⟩ ∧
    (update_book [⟨"1", "Dune", "Herbert", "reading", 5, "alice"⟩]
        [⟨"1", "Dune", "Herbert", "reading", 5, "alice"⟩] "1"
        ⟨none, none, some "bogus"⟩ "alice").ops = [.select] ∧
    ([StoreOp.select] : List StoreOp) ≠ [] :=
  ⟨rfl, rfl, by decide⟩

/-- C4 (amended): create and list raise validation errors before any store
access (empty call trace); update performs the owner-scoped existence read
first and raises its validation errors (invalid status, empty payload)
after that read but before any store mutation — the trace is exactly the
one read and the store is unchanged. -/
theorem C4_validation_and_store_access_order :
    (∀ (s : Store) (book : BookCreate) (uid newId : String) (ts : Nat),
      valid_statuses.contains book.status = false →
      create_book s book uid newId ts =
        ⟨.error ⟨400, "Status must be one of: " ++ joinedStatuses⟩, s, []⟩) ∧
    (∀ (s : Store) (f uid : String), truthy (some f) = true →
      valid_statuses.contains f = false →
      (get_books s (some f) uid).2 = []) ∧
    (∀ (check mutate : Store) (book_id uid st : String) (bu : BookUpdate),
      bu.status = some st → valid_statuses.contains st = false →
      (update_book check mutate book_id bu uid).store = mutate ∧
      (update_book check mutate book_id bu uid).ops = [.select]) ∧
    (∀ (check mutate : Store) (book_id uid : String),
      (update_book check mutate book_id ⟨none, none, none⟩ uid).store = mutate ∧
      (update_book check mutate book_id ⟨none, none, none⟩ uid).ops = [.select]) := by
  refine ⟨?_, ?_, ?_, ?_⟩
  · intro s book uid newId ts h
    have h2 : book.status ∉ valid_statuses := by simpa using h
    simp [create_book, h2]
  · intro s f uid ht hv
    have hv2 : f ∉ valid_statuses := by simpa using hv
    simp [get_books, get_books_inner, ht, hv2]
  · intro check mutate book_id uid st bu hst hv
    have hv2 : st ∉ valid_statuses := by simpa using hv
    by_cases hsel : (selectIdUser check book_id uid).isEmpty = true
    · constructor <;> simp [update_book, hsel]
    · have hbad : buildUpdateData bu =
          .error ⟨400, "Status must be one of: " ++ joinedStatuses⟩ := by
        simp [buildUpdateData, hst, hv2]
      constructor <;> simp [update_book, hsel, hbad]
  · intro check mutate book_id uid
    by_cases hsel : (selectIdUser check book_id uid).isEmpty = true
    · constructor <;> simp [update_book, hsel]
    · constructor <;> simp [update_book, hsel, buildUpdateData, UpdateData.isEmpty]

/-- Witness for C4 (amended): concrete requests with invalid statuses and
an empty payload, showing the empty create/list traces and the read-only
update trace. -/
theorem C4_validation_and_store_access_order_witness :
    create_book [] ⟨"T", "A", "bogus"⟩ "u" "9" 0 =
      ⟨.error ⟨400, "Status must be one of: " ++ joinedStatuses⟩, [], []⟩ ∧
    (get_books [] (some "bogus") "u").2 = [] ∧
    (update_book [] [] "1" ⟨none, none, some "bogus"⟩ "u").ops = [.select] ∧
    (update_book [] [] "1" ⟨none, none, none⟩ "u").ops = [.select] :=
  ⟨C4_validation_and_store_access_order.1 [] ⟨"T", "A", "bogus"⟩ "u" "9" 0 (by decide),
   C4_validation_and_store_access_order.2.1 [] "bogus" "u" (by decide) (by decide),
   (C4_validation_and_store_access_order.2.2.1 [] [] "1" "u" "bogus"
     ⟨none, none, some "bogus"⟩ rfl (by decide)).2,
   (C4_validation_and_store_access_order.2.2.2 [] [] "1" "u").2⟩

/-- C6: an update whose body has none of the recognized fields fails with a
client error (404 if the book is not found, else 400 "No fields to
update"), the store is unchanged, and the call trace holds only the
existence read — no mutation is issued. -/
theorem C6_empty_update_payload_rejected (s : Store) (book_id uid : String) :
    (∃ e, (update_book s s book_id ⟨none, none, none⟩ uid).response = .error e ∧
      ApiError.isClientError e = true) ∧
    (update_book s s book_id ⟨none, none, none⟩ uid).store = s ∧
    (update_book s s book_id ⟨none, none, none⟩ uid).ops = [.select] := by
  by_cases hsel : (selectIdUser s book_id uid).isEmpty = true
  · refine ⟨⟨⟨404, "Book not found"⟩, ?_, by decide⟩, ?_, ?_⟩ <;>
      simp [update_book, hsel]
  · refine ⟨⟨⟨400, "No fields to update"⟩, ?_, by decide⟩, ?_, ?_⟩ <;>
      simp [update_book, hsel, buildUpdateData, UpdateData.isEmpty]

/-- C7: a successful update changes exactly the supplied fields — every
omitted field keeps its prior value, and `id`, `user_id` (the owner) and
`created_at` are never changed; rows not matching the owner-scoped filter
survive in the store untouched. -/
theorem C7_partial_update_only_supplied_fields
    (s : Store) (book_id uid : String) (bu : BookUpdate) (b : Book)
    (hsel : selectIdUser s book_id uid = [b])
    (hst : ∀ st, bu.status = some st → valid_statuses.contains st = true)
    (hne : ¬(bu.title = none ∧ bu.author = none ∧ bu.status = none)) :
    (update_book s s book_id bu uid).response =
      .ok { id := b.id, title := bu.title.getD b.title,
            author := bu.author.getD b.author, status := bu.status.getD b.status,
            created_at := b.created_at, user_id := b.user_id } ∧
    (update_book s s book_id bu uid).ops = [.select, .update] ∧
    ∀ x ∈ s, ¬(x.id = book_id ∧ x.user_id = uid) →
      x ∈ (update_book s s book_id bu uid).store := by
  have hud : buildUpdateData bu = .ok ⟨bu.title, bu.author, bu.status⟩ := by
    cases hbs : bu.status with
    | none => simp [buildUpdateData, hbs]
    | some st =>
      have := hst st hbs
      have h2 : st ∈ valid_statuses := by simpa using this
      simp [buildUpdateData, hbs, h2]
  have hempty : (⟨bu.title, bu.author, bu.status⟩ : UpdateData).isEmpty = false := by
    cases hq : (⟨bu.title, bu.author, bu.status⟩ : UpdateData).isEmpty with
    | false => rfl
    | true => exact absurd ((updateData_isEmpty_iff _).mp hq) hne
  have hdata : updateRowsData s ⟨bu.title, bu.author, bu.status⟩ book_id uid =
      [applyUpdate ⟨bu.title, bu.author, bu.status⟩ b] := by
    show (selectIdUser s book_id uid).map _ = _
    rw [hsel]
    rfl
  have hselF : (selectIdUser s book_id uid).isEmpty = false := by rw [hsel]; rfl
  have hrun : update_book s s book_id bu uid =
      ⟨.ok (applyUpdate ⟨bu.title, bu.author, bu.status⟩ b),
       updateRowsStore s ⟨bu.title, bu.author, bu.status⟩ book_id uid,
       [.select, .update]⟩ := by
    simp [update_book, hselF, hud, hempty, hdata]
  refine ⟨?_, ?_, ?_⟩
  · rw [hrun]
    rfl
  · rw [hrun]
  · intro x hx hnot
    rw [hrun]
    show x ∈ updateRowsStore s ⟨bu.title, bu.author, bu.status⟩ book_id uid
    have hpred : (x.id == book_id && x.user_id == uid) = false := by
      by_cases h1 : x.id = book_id
      · have h2 : x.user_id ≠ uid := fun h2 => hnot ⟨h1, h2⟩
        simp [h2]
      · simp [h1]
    refine List.mem_map.mpr ⟨x, hx, ?_⟩
    simp [hpred]

/-- Witness for C7: updating only title and status leaves author,
`created_at`, owner and id unchanged. -/
theorem C7_partial_update_only_supplied_fields_witness :
    (update_book [⟨"1", "Dune", "Herbert", "reading", 5, "alice"⟩]
        [⟨"1", "Dune", "Herbert", "reading", 5, "alice"⟩] "1"
        ⟨some "New", none, some "completed"⟩ "alice").response =
      .ok ⟨"1", "New", "Herbert", "completed", 5, "alice"⟩ :=
  (C7_partial_update_only_supplied_fields
    [⟨"1", "Dune", "Herbert", "reading", 5, "alice"⟩] "1" "alice"
    ⟨some "New", none, some "completed"⟩ ⟨"1", "Dune", "Herbert", "reading", 5, "alice"⟩
    (by decide)
    (by intro st h; injection h with h; rw [← h]; decide)
    (by decide)).1

/-- C8: an authenticated list request whose filter is absent, empty, or a
valid status returns exactly the caller's books — narrowed to the filter's
status when the filter is truthy — as a permutation of the owner-scoped
filter of the store, sorted by `created_at` descending; every returned book
belongs to the caller and matches the filter when one applies. -/
theorem C8_list_owner_scoped_and_sorted
    (s : Store) (uid : String) (sf : Option String)
    (hvalid : ∀ f, sf = some f → (f == "") = false →
      valid_statuses.contains f = true) :
    ∃ l, get_books s sf uid = (.ok l, [.select]) ∧
      l.Perm (s.filter (fun b =>
        if truthy sf then b.user_id == uid && b.status == sf.getD ""
        else b.user_id == uid)) ∧
      List.Sorted createdDesc l ∧
      ∀ b ∈ l, b.user_id = uid ∧ (truthy sf = true → b.status = sf.getD "") := by
  cases htr : truthy sf with
  | false =>
    refine ⟨orderByCreatedDesc (s.filter (fun b => b.user_id == uid)), ?_, ?_, ?_, ?_⟩
    · cases sf with
      | none => rfl
      | some f =>
        have hf : (f == "") = true := by simpa [truthy] using htr
        have hf2 : f = "" := by simpa using hf
        subst hf2
        rfl
    · have hcongr : (s.filter (fun b =>
          if false = true then b.user_id == uid && b.status == sf.getD ""
          else b.user_id == uid)) = s.filter (fun b => b.user_id == uid) := by
        simp
      rw [hcongr]
      exact List.perm_insertionSort _ _
    · exact List.sorted_insertionSort _ _
    · intro b hb
      have hmem : b ∈ s.filter (fun b => b.user_id == uid) :=
        (List.perm_insertionSort createdDesc _).mem_iff.mp hb
      refine ⟨by simpa using (List.mem_filter.mp hmem).2, ?_⟩
      intro hcontra
      exact absurd hcontra (by decide)
  | true =>
    cases sf with
    | none => simp [truthy] at htr
    | some f =>
      have hf : (f == "") = false := by simpa [truthy] using htr
      have hv : valid_statuses.contains f = true := hvalid f rfl hf
      have hv2 : f ∈ valid_statuses := by simpa using hv
      refine ⟨orderByCreatedDesc
        (s.filter (fun b => b.user_id == uid && b.status == f)), ?_, ?_, ?_, ?_⟩
      · simp [get_books, get_books_inner, truthy, hf, hv2]
      · have hcongr : (s.filter (fun b =>
            if true = true then b.user_id == uid && b.status == (some f).getD ""
            else b.user_id == uid)) =
            s.filter (fun b => b.user_id == uid && b.status == f) := by
          simp
        rw [hcongr]
        exact List.perm_insertionSort _ _
      · exact List.sorted_insertionSort _ _
      · intro b hb
        have hmem : b ∈ s.filter (fun b => b.user_id == uid && b.status == f) :=
          (List.perm_insertionSort createdDesc _).mem_iff.mp hb
        have hp := (List.mem_filter.mp hmem).2
        simp only [Bool.and_eq_true, beq_iff_eq] at hp
        exact ⟨hp.1, fun _ => hp.2⟩

/-- Witness for C8: listing alice's books with the filter "reading"
returns exactly her matching book. -/
theorem C8_list_owner_scoped_and_sorted_witness :
    ∃ l, get_books
        [⟨"1", "Dune", "Herbert", "reading", 5, "alice"⟩,
         ⟨"2", "Emma", "Austen", "completed", 7, "alice"⟩,
         ⟨"3", "Ilias", "Homer", "reading", 6, "bob"⟩]
        (some "reading") "alice" = (.ok l, [.select]) ∧
      l.Perm ((
        [⟨"1", "Dune", "Herbert", "reading", 5, "alice"⟩,
         ⟨"2", "Emma", "Austen", "completed", 7, "alice"⟩,
         ⟨"3", "Ilias", "Homer", "reading", 6, "bob"⟩] : Store).filter (fun b =>
        if truthy (some "reading") then
          b.user_id == "alice" && b.status == (some "reading").getD ""
        else b.user_id == "alice")) ∧
      List.Sorted createdDesc l ∧
      ∀ b ∈ l, b.user_id = "alice" ∧
        (truthy (some "reading") = true → b.status = (some "reading").getD "") :=
  C8_list_owner_scoped_and_sorted
    [⟨"1", "Dune", "Herbert", "reading", 5, "alice"⟩,
     ⟨"2", "Emma", "Austen", "completed", 7, "alice"⟩,
     ⟨"3", "Ilias", "Homer", "reading", 6, "bob"⟩]
    "alice" (some "reading")
    (by intro f hf h2; injection hf with hf; rw [← hf]; decide)

lemma step_preservesStatusInv (s : Store) (r : Request) (h : statusInv s) :
    statusInv (step s r) := by
  cases r with
  | listReq sf uid => exact h
  | createReq raw uid newId ts =>
    simp only [step]
    unfold create_endpoint
    split
    · exact h
    · rename_i book hp
      unfold create_book
      split
      · exact h
      · rename_i hv
        intro b hb
        rcases List.mem_append.mp hb with hb | hb
        · exact h b hb
        · have hb2 : b = insertRow book uid newId ts := by simpa using hb
          rw [hb2]
          show book.status ∈ valid_statuses
          exact (contains_iff_mem _ _).mp (not_not.mp hv)
  | deleteReq book_id uid =>
    simp only [step]
    unfold delete_book
    split
    · exact h
    · intro b hb
      exact h b (List.mem_of_mem_filter hb)
  | updateReq book_id bu uid =>
    simp only [step]
    unfold update_book
    split
    · exact h
    · split
      · exact h
      · rename_i ud hud
        split
        · exact h
        · have hinv : statusInv (updateRowsStore s ud book_id uid) := by
            intro b hb
            rcases List.mem_map.mp hb with ⟨a, ha, hab⟩
            by_cases hpred : (a.id == book_id && a.user_id == uid) = true
            · rw [if_pos hpred] at hab
              rw [← hab]
              cases hus : ud.status with
              | none =>
                simp [applyUpdate, hus]
                exact h a ha
              | some st =>
                simp [applyUpdate, hus]
                have := buildUpdateData_status_valid bu ud hud st hus
                simpa using this
            · rw [if_neg hpred] at hab
              rw [← hab]
              exact h a ha
          split
          · exact hinv
          · exact hinv

lemma foldl_step_statusInv (reqs : List Request) :
    ∀ s, statusInv s → statusInv (reqs.foldl step s) := by
  induction reqs with
  | nil => exact fun s h => h
  | cons r rs ih => exact fun s h => ih (step s r) (step_preservesStatusInv s r h)

/-- C9: every store state reachable from the empty store through any
sequence of API requests satisfies the status invariant — every persisted
book's status is one of \{reading, completed, wishlist\}: create and update
validate before writing, delete only removes rows, and list never writes. -/
theorem C9_reachable_states_have_enumerated_status (reqs : List Request) :
    statusInv (reqs.foldl step []) :=
  foldl_step_statusInv reqs [] (by intro b hb; cases hb)

end BookTracker
